import Mathlib

/-!
A shallow embedding of src/app.py, the FastAPI backend of ai-chat-v1: the
mode-to-preset dispatch, the per-request credential check, the single remote
generation call, the response extraction with its fallback payload, and the
blanket exception handler of the /api/generate endpoint.
-/

namespace AIChatV1

/-- A JSON-like value: the Any in the request field type List[Dict[str, Any]]. -/
inductive JValue where
  | s (v : String)
  | n (v : Int)
  | b (v : Bool)
  | null
  | arr (vs : List JValue)
  | obj (fields : List (String × JValue))

/-- One conversation turn: a Python Dict[str, Any] as an association list. -/
abbrev Turn := List (String × JValue)

/-- Request body model ChatRequest (src/app.py lines 94-96). -/
structure ChatRequest where
  history : List Turn
  mode : String

/-- One content part of a provider candidate, exposing a text field. -/
structure Part where
  text : String

/-- Candidate content: a list of parts. -/
structure Content where
  parts : List Part

/-- One provider candidate; content = none models a missing or falsy content. -/
structure Candidate where
  content : Option Content

/-- The provider response object: candidates plus the optional prompt_feedback
attribute (none models hasattr being false); the String is the textual
rendering the f-string of line 183 would interpolate. -/
structure GenResponse where
  candidates : List Candidate
  prompt_feedback : Option String

/-- The generation_config dictionaries (src/app.py lines 136-160). -/
structure GenerationConfig where
  temperature : Rat
  top_p : Rat
  top_k : Nat
  max_output_tokens : Nat

/-- A mode preset: model identifier, system instruction, tuning parameters. -/
structure ModePreset where
  model_name : String
  system_instruction : String
  generation_config : GenerationConfig

/-- The shape of the three MODE_PROMPT dictionaries: a role and content parts. -/
structure PromptDict where
  role : String
  parts : List Part
/-- The text field of the TUTOR_MODE_PROMPT dictionary (src/app.py). -/
def TUTOR_MODE_PROMPT_text : String :=
  "You are an expert STEM problem solver. Your task is to generate a perfect, exam-style answer in Bengali. The output must be absolutely clean, professional, and presented as a natural, flowing solution.\nYour response MUST strictly follow this two-part structure:\n1. <thinking> Block:\nFirst, privately analyze the problem and plan your solution. You must reason step-by-step your process, so it eliminates the probability of you being wrong.. This entire process must be enclosed within <thinking> and </thinking> tags. This is your hidden scratchpad.\n2. Exam-Style Solution:\nAfter the thinking block, present the final solution. This part must be written in Bengali and adhere to the following absolute rules:\nNO STEP LABELS: You are strictly forbidden from using numbered labels like \"ধাপ ১\", \"ধাপ ২\", etc. The solution must be presented as a single, continuous flow of logic.\nLOGICAL GROUPING: Use line breaks to separate distinct parts of the calculation. For instance, group all calculations for one variable or one part of the problem together, then use a line break before starting the next part. The entire solution should read like a single, coherent mathematical argument.\nMINIMALIST EXPLANATIONS: Provide a brief, one-sentence explanation only when a step involves a non-obvious formula or a complex logical jump.\nThese rare explanations must be short, italicized, and placed directly before the calculation they clarify.\nDO NOT explain basic arithmetic, simple algebra, or standard unit conversions. The output must be pristine and free of all unnecessary text.\nFINAL ANSWER: Conclude by clearly stating the final answer, for example: \"∴ নির্ণেয় উত্তর: [Your Answer]\".\nCore Mandates:\nThe <thinking> block is mandatory and must always come first.\nThe entire public-facing output must be in Bengali.\nFor creative questions (সৃজনশীল প্রশ্ন), answer all parts (ক, খ, গ, ঘ) unless specified otherwise.\nThe final output must look like it was written by a top-scoring student: efficient, clean, and seamless.\n        "

/-- The text field of the CONCEPT_MODE_PROMPT dictionary (src/app.py). -/
def CONCEPT_MODE_PROMPT_text : String :=
  "You are an expert and patient AI Tutor. Your task is to provide a detailed, step-by-step explanation of a problem in Bengali, assuming the user is a complete beginner with no prior knowledge of the topic.\n\nYour response MUST strictly follow this two-part structure:\n\n**1. `<thinking>` Block:**\nFirst, privately analyze the problem and plan your solution. You must reason step-by-step through your process, so it eliminates the probability of you being wrong. This entire process must be enclosed within `<thinking>` and `</thinking>` tags. This is your hidden scratchpad.\n\n**2. Beginner-Friendly Explanation (বিস্তারিত ব্যাখ্যা):**\nAfter the thinking block, present the final, detailed explanation. This part must be written in Bengali and adhere to the following tutorial-style rules:\n\n*   **Introduce the Core Concept:** Before starting the steps, begin with a short, simple paragraph explaining the main scientific principle or formula that is key to solving the problem.\n*   **Clear, Numbered Steps:** Use numbered labels like \"**ধাপ ১**\", \"**ধাপ ২**\", etc., to break the solution into easy-to-follow parts. Each step should focus on one logical action.\n*   **Explain First, Then Calculate:** For each step, first explain *what* you are about to do and *why* in simple, clear language. After the explanation, show the relevant calculation.\n*   **Assume Zero Knowledge:** Explain all necessary concepts. If you use a formula (like PV=nRT), briefly state what each variable (P, V, n, R, T) represents in the context of the problem. Your goal is to teach, not just to show an answer.\n*   **Balance and Brevity:** While being thorough, keep explanations concise and to the point. Avoid long, dense paragraphs. The goal is to build understanding without overwhelming the user.\n*   **Final Answer:** Conclude by clearly stating the final answer, for example: \"**∴ নির্ণেয় উত্তর:** [Your Answer]\".\n\n**Core Mandates:**\n- The `<thinking>` block is mandatory and must always come first.\n- The entire public-facing output must be in Bengali.\n- For creative questions (সৃজনশীল প্রশ্ন), explain all parts (ক, খ, গ, ঘ) unless specified otherwise.\n- The tone must be helpful, encouraging, and clear, like a good teacher.\n        "

/-- The text field of the ASSISTANT_MODE_PROMPT dictionary (src/app.py). -/
def ASSISTANT_MODE_PROMPT_text : String :=
  "You are a polite, trustworthy personal assistant. Be accurate, clear, and practical in your answers. Stay relatable and respectful, with a warm but concise tone. Adapt to the user’s mood: empathetic if they’re stressed, direct if they want facts. Never give false promises — if unsure, admit it and offer the best guidance available. only if someone ask what model are you or who are you or who developed/made you, only if someone asks ones of those questions you answer that you are - chat-v1 developed by Rohan"

/-- TUTOR_MODE_PROMPT (src/app.py lines 19-41). -/
def TUTOR_MODE_PROMPT : PromptDict :=
  { role := "system", parts := [{ text := TUTOR_MODE_PROMPT_text }] }

/-- CONCEPT_MODE_PROMPT (src/app.py lines 44-71). -/
def CONCEPT_MODE_PROMPT : PromptDict :=
  { role := "system", parts := [{ text := CONCEPT_MODE_PROMPT_text }] }

/-- ASSISTANT_MODE_PROMPT (src/app.py lines 74-79). -/
def ASSISTANT_MODE_PROMPT : PromptDict :=
  { role := "system", parts := [{ text := ASSISTANT_MODE_PROMPT_text }] }

/-- Evaluates the Python subscript chain PROMPT, then parts, index 0, then text. -/
def promptText (p : PromptDict) : String :=
  (p.parts.headD { text := "" }).text

/-- The assistant-mode branch of the dispatch (src/app.py lines 132-141). -/
def assistantPreset : ModePreset :=
  { model_name := "gemini-1.5-flash-latest",
    system_instruction := promptText ASSISTANT_MODE_PROMPT,
    generation_config :=
      { temperature := 0.7, top_p := 0.95, top_k := 40, max_output_tokens := 8192 } }

/-- The tutor-mode branch of the dispatch (src/app.py lines 142-151). -/
def tutorPreset : ModePreset :=
  { model_name := "gemini-2.0-flash",
    system_instruction := promptText TUTOR_MODE_PROMPT,
    generation_config :=
      { temperature := 0.55, top_p := 0.95, top_k := 32, max_output_tokens := 8192 } }

/-- The concept-mode branch of the dispatch (src/app.py lines 152-161). -/
def conceptPreset : ModePreset :=
  { model_name := "gemini-2.0-flash",
    system_instruction := promptText CONCEPT_MODE_PROMPT,
    generation_config :=
      { temperature := 0.55, top_p := 0.95, top_k := 32, max_output_tokens := 8192 } }

/-- The if/elif/else dispatch on request.mode (src/app.py lines 132-163);
none is the final else branch, which raises HTTPException(400). -/
def selectPreset (mode : String) : Option ModePreset :=
  if mode == "assistant" then some assistantPreset
  else if mode == "tutor" then some tutorPreset
  else if mode == "concept" then some conceptPreset
  else none

/-- Observable endpoint outcome: a 200 JSON body carrying a text field, or an
HTTP error response with a status code and a detail string. -/
inductive Response where
  | ok (text : String)
  | httpError (status_code : Nat) (detail : String)

/-- A Python exception as the except clause sees it: a FastAPI HTTPException
(status plus detail) or any other exception carrying a message. -/
inductive Exc where
  | httpExc (status_code : Nat) (detail : String)
  | generic (message : String)

/-- Python str(e): Starlette renders an HTTPException as "status: detail";
a plain exception renders as its message. -/
def strOfExc : Exc → String
  | Exc.httpExc status detail => toString status ++ ": " ++ detail
  | Exc.generic message => message

/-- One call to the remote generation service: the GenerativeModel constructor
arguments (src/app.py lines 165-169) plus the history passed to the
generate_content_async call (line 172). -/
structure RemoteCall where
  model_name : String
  system_instruction : String
  generation_config : GenerationConfig
  history : List Turn

/-- What a stubbed remote generation call does: return a response or raise. -/
inductive RemoteOutcome where
  | ok (response : GenResponse)
  | raise (message : String)

/-- The arguments of the single remote call (src/app.py lines 165-172). -/
def mkCall (preset : ModePreset) (history : List Turn) : RemoteCall :=
  { model_name := preset.model_name,
    system_instruction := preset.system_instruction,
    generation_config := preset.generation_config,
    history := history }

/-- Python truthiness of the check at line 118 (if not GOOGLE_API_KEY):
true when the variable is None or the empty string. -/
def keyMissing : Option String → Bool
  | none => true
  | some s => s == ""

/-- Line 181: prompt_feedback when the attribute exists, else "Unknown". -/
def finish_reason_of (response : GenResponse) : String :=
  match response.prompt_feedback with
  | some feedback => feedback
  | none => "Unknown"

/-- The fallback body of line 183, the f-string interpolation spelled out as
string appends. -/
def fallback_text (response : GenResponse) : String :=
  "Error: The AI could not provide a response, it may have been blocked by safety filters. (Reason: "
    ++ finish_reason_of response ++ ")"

/-- Lines 176-183: when candidates is nonempty, the first candidate has truthy
content and that content has a nonempty parts list, return the first part
text; otherwise return the fallback payload. Both outcomes are 200 responses. -/
def extract_text (response : GenResponse) : Response :=
  match response.candidates with
  | [] => Response.ok (fallback_text response)
  | candidate :: _ =>
    match candidate.content with
    | none => Response.ok (fallback_text response)
    | some content =>
      match content.parts with
      | [] => Response.ok (fallback_text response)
      | part :: _ => Response.ok part.text

/-- The try block (src/app.py lines 122-183). genai.configure (line 124)
overwrites the library state with GOOGLE_API_KEY before any use, which the
shadowing let models; the remote call then runs under the configured state.
A raise is modeled as Except.error. -/
def try_block (GOOGLE_API_KEY : Option String)
    (remote : Option String → RemoteCall → RemoteOutcome)
    (genai_state : Option String) (request : ChatRequest) :
    (Except Exc Response × List RemoteCall) × Option String :=
  let genai_state := GOOGLE_API_KEY
  match selectPreset request.mode with
  | none => ((Except.error (Exc.httpExc 400 "Invalid mode specified."), []), genai_state)
  | some preset =>
    match remote genai_state (mkCall preset request.history) with
    | RemoteOutcome.raise message =>
      ((Except.error (Exc.generic message), [mkCall preset request.history]), genai_state)
    | RemoteOutcome.ok response =>
      ((Except.ok (extract_text response), [mkCall preset request.history]), genai_state)

/-- The endpoint handler generate_content (src/app.py lines 111-189), with the
process-global GOOGLE_API_KEY, the stubbed remote service and the genai
library configuration state made explicit. Returns the observable response,
the list of remote calls issued, and the final library state. Any exception
escaping the try block - including the HTTPException(400) raised at line 163
for an invalid mode - is caught by the blanket except at lines 185-189 and
re-raised as a 500 whose detail is str(e). -/
def generate_content (GOOGLE_API_KEY : Option String)
    (remote : Option String → RemoteCall → RemoteOutcome)
    (genai_state : Option String) (request : ChatRequest) :
    (Response × List RemoteCall) × Option String :=
  if keyMissing GOOGLE_API_KEY then
    ((Response.httpError 500 "API key not configured on the server.", []), genai_state)
  else
    match try_block GOOGLE_API_KEY remote genai_state request with
    | ((Except.ok response, calls), st) => ((response, calls), st)
    | ((Except.error e, calls), st) => ((Response.httpError 500 (strOfExc e), calls), st)

/-- A process environment: variable name/value pairs. -/
structure Env where
  vars : List (String × String)

/-- Python os.getenv over the environment model. -/
def Env.getenv (e : Env) (key : String) : Option String :=
  match e.vars.find? (fun p => p.1 == key) with
  | some p => some p.2
  | none => none

/-- Line 15: the module-level GOOGLE_API_KEY assignment, executed once at module
load against the environment present at process startup. -/
def loadApiKey (bootEnv : Env) : Option String :=
  Env.getenv bootEnv "GOOGLE_API_KEY"

/-- A request handled by the running process: reqEnv is the process
environment at the moment the request is handled. The handler body never
reads it - the check at line 118 consults the module global loaded at
startup (line 15). -/
def handle_request (bootEnv : Env) (reqEnv : Env)
    (remote : Option String → RemoteCall → RemoteOutcome)
    (genai_state : Option String) (request : ChatRequest) :
    (Response × List RemoteCall) × Option String :=
  generate_content (loadApiKey bootEnv) remote genai_state request

/-- Modelled from the spec: "one required string-valued credential read once
at request time from process environment". A variant handler that reads
GOOGLE_API_KEY from the request-time environment, stated only to be compared
with handle_request, which is what the code actually does. -/
def handle_request_specRead (bootEnv : Env) (reqEnv : Env)
    (remote : Option String → RemoteCall → RemoteOutcome)
    (genai_state : Option String) (request : ChatRequest) :
    (Response × List RemoteCall) × Option String :=
  generate_content (Env.getenv reqEnv "GOOGLE_API_KEY") remote genai_state request

/-- A deterministic remote stub returning one candidate with text "hello". -/
def respHello : GenResponse :=
  { candidates := [{ content := some { parts := [{ text := "hello" }] } }],
    prompt_feedback := none }

def stubHello : Option String → RemoteCall → RemoteOutcome :=
  fun _ _ => RemoteOutcome.ok respHello

/-- The worked example of the spec: candidate text in Bengali. -/
def respBengali : GenResponse :=
  { candidates := [{ content := some { parts := [{ text := "∴ উত্তর: ৪২" }] } }],
    prompt_feedback := none }

def stubBengali : Option String → RemoteCall → RemoteOutcome :=
  fun _ _ => RemoteOutcome.ok respBengali

/-- A blocked response: zero candidates, with provider feedback present. -/
def respBlocked : GenResponse :=
  { candidates := [], prompt_feedback := some "block_reason: SAFETY" }

def stubBlocked : Option String → RemoteCall → RemoteOutcome :=
  fun _ _ => RemoteOutcome.ok respBlocked

/-- A response whose first candidate is empty while the second carries text. -/
def respFirstEmpty : GenResponse :=
  { candidates :=
      [{ content := none },
       { content := some { parts := [{ text := "text only in the second candidate" }] } }],
    prompt_feedback := none }

def stubFirstEmpty : Option String → RemoteCall → RemoteOutcome :=
  fun _ _ => RemoteOutcome.ok respFirstEmpty

/-- A remote stub that raises. -/
def stubRaise : Option String → RemoteCall → RemoteOutcome :=
  fun _ _ => RemoteOutcome.raise "503 Service Unavailable"

/-- A concrete conversation turn. -/
def sampleTurn : Turn :=
  [("role", JValue.s "user"),
   ("parts", JValue.arr [JValue.obj [("text", JValue.s "2 + 2 = ?")]])]

/-- Client-error discriminator: is the response an HTTP 400. -/
def is_http_400 : Response → Bool
  | Response.httpError 400 _ => true
  | _ => false




/-- Helper: the observable output of one request does not depend on the
incoming genai library state, because line 124 reconfigures the library
before any use. -/
theorem output_independent_of_state (GOOGLE_API_KEY : Option String)
    (remote : Option String → RemoteCall → RemoteOutcome)
    (st st' : Option String) (request : ChatRequest) :
    (generate_content GOOGLE_API_KEY remote st request).1
      = (generate_content GOOGLE_API_KEY remote st' request).1 := by
  cases h : keyMissing GOOGLE_API_KEY <;> simp [generate_content, try_block, h]

/-- Helper: the extraction of lines 176-183 always produces a 200 payload,
never an HTTP 400. -/
theorem is_http_400_extract (response : GenResponse) :
    is_http_400 (extract_text response) = false := by
  cases hc : response.candidates with
  | nil => simp [extract_text, hc, is_http_400]
  | cons c cs =>
    cases hcc : c.content with
    | none => simp [extract_text, hc, hcc, is_http_400]
    | some content =>
      cases hp : content.parts with
      | nil => simp [extract_text, hc, hcc, hp, is_http_400]
      | cons p ps => simp [extract_text, hc, hcc, hp, is_http_400]

/-- Claim C1, code-bug exhibit: with a credential present and an unknown mode,
the handler issues zero remote calls but answers with HTTP status 500, not
400 as the claim states: the HTTPException(400) raised at line 163 sits
inside the try block, is caught by the blanket except of lines 185-189, and
is re-raised as a 500 whose detail is str(e). -/
theorem c1_unknown_mode_yields_500_not_400 :
    generate_content (some "test-key") stubHello none
        { history := [sampleTurn], mode := "bogus" }
      = ((Response.httpError 500 "400: Invalid mode specified.", []), some "test-key") := rfl

/-- Claim C2, counterexample: the process starts with no credential in the
environment; at request time the environment does contain one, yet the
handler still answers with the missing-credential 500 and issues no remote
call, while a handler reading the environment at request time (the claim's
wording, handle_request_specRead) succeeds on the same request. The value
checked at line 118 is the one read once at startup by line 15. -/
theorem c2_counterexample :
    (handle_request { vars := [] }
        { vars := [("GOOGLE_API_KEY", "request-time-key")] }
        stubHello none { history := [sampleTurn], mode := "assistant" }).1
      = (Response.httpError 500 "API key not configured on the server.", [])
    ∧ ((handle_request_specRead { vars := [] }
        { vars := [("GOOGLE_API_KEY", "request-time-key")] }
        stubHello none { history := [sampleTurn], mode := "assistant" }).1).1
      = Response.ok "hello" :=
  ⟨rfl, rfl⟩

/-- Claim C2, amended: the credential is read from the environment once at
process startup (line 15) and cached in a module global; each request checks
that cached value (line 118), so a process started without a credential
starts fine and each of its requests fails with the configuration error -
the environment at request time is never consulted, and the outcome is
invariant under any change to it. -/
theorem c2_amended_startup_read (bootEnv reqEnv reqEnv' : Env)
    (remote : Option String → RemoteCall → RemoteOutcome)
    (st st' : Option String) (request : ChatRequest) :
    (handle_request bootEnv reqEnv remote st request).1
      = (handle_request bootEnv reqEnv' remote st' request).1
    ∧ (handle_request { vars := [] } reqEnv remote st request).1
      = (Response.httpError 500 "API key not configured on the server.", []) := by
  constructor
  · exact output_independent_of_state (loadApiKey bootEnv) remote st st' request
  · rfl

/-- Claim C3: with the credential check passing, a valid mode and a remote
response whose first candidate has content with at least one part, the
handler returns exactly the first candidate's first part's text, unchanged. -/
theorem c3_returns_first_part_text_verbatim
    (GOOGLE_API_KEY : Option String) (hkey : keyMissing GOOGLE_API_KEY = false)
    (remote : Option String → RemoteCall → RemoteOutcome)
    (st : Option String) (request : ChatRequest) (preset : ModePreset)
    (hmode : selectPreset request.mode = some preset)
    (response : GenResponse) (c : Candidate) (cs : List Candidate)
    (content : Content) (part : Part) (parts : List Part)
    (hremote : remote GOOGLE_API_KEY (mkCall preset request.history)
      = RemoteOutcome.ok response)
    (hcand : response.candidates = c :: cs)
    (hcontent : c.content = some content)
    (hparts : content.parts = part :: parts) :
    ((generate_content GOOGLE_API_KEY remote st request).1).1
      = Response.ok part.text := by
  simp [generate_content, try_block, hkey, hmode, hremote, extract_text,
    hcand, hcontent, hparts]

/-- Claim C3 witness: the worked Bengali example of the spec, in tutor mode. -/
theorem c3_witness :
    ((generate_content (some "test-key") stubBengali none
        { history := [sampleTurn], mode := "tutor" }).1).1
      = Response.ok "∴ উত্তর: ৪২" :=
  c3_returns_first_part_text_verbatim (some "test-key") rfl stubBengali none
    { history := [sampleTurn], mode := "tutor" } tutorPreset rfl
    respBengali { content := some { parts := [{ text := "∴ উত্তর: ৪২" }] } } []
    { parts := [{ text := "∴ উত্তর: ৪২" }] } { text := "∴ উত্তর: ৪২" } []
    rfl rfl rfl rfl

/-- Claim C4: for a remote response with zero candidates the handler returns
a successful payload whose text is the fallback string, which starts with
the literal "Error: The AI could not provide a response" and embeds the
provider feedback rendering (finish_reason_of, which is "Unknown" exactly
when the prompt_feedback attribute is absent). -/
theorem c4_zero_candidates_fallback
    (GOOGLE_API_KEY : Option String) (hkey : keyMissing GOOGLE_API_KEY = false)
    (remote : Option String → RemoteCall → RemoteOutcome)
    (st : Option String) (request : ChatRequest) (preset : ModePreset)
    (hmode : selectPreset request.mode = some preset)
    (response : GenResponse)
    (hremote : remote GOOGLE_API_KEY (mkCall preset request.history)
      = RemoteOutcome.ok response)
    (hcand : response.candidates = []) :
    ((generate_content GOOGLE_API_KEY remote st request).1).1
      = Response.ok (fallback_text response)
    ∧ fallback_text response
      = "Error: The AI could not provide a response"
        ++ (", it may have been blocked by safety filters. (Reason: "
            ++ (finish_reason_of response ++ ")")) := by
  constructor
  · simp [generate_content, try_block, hkey, hmode, hremote, extract_text, hcand]
  · rfl

/-- Claim C4 witness: a blocked response carrying provider feedback. -/
theorem c4_witness :
    ((generate_content (some "test-key") stubBlocked none
        { history := [], mode := "concept" }).1).1
      = Response.ok (fallback_text respBlocked)
    ∧ fallback_text respBlocked
      = "Error: The AI could not provide a response"
        ++ (", it may have been blocked by safety filters. (Reason: "
            ++ (finish_reason_of respBlocked ++ ")")) :=
  c4_zero_candidates_fallback (some "test-key") rfl stubBlocked none
    { history := [], mode := "concept" } conceptPreset rfl respBlocked rfl rfl

/-- Claim C5: valid mode, credential check passing, remote call raising - the
handler returns a 500 whose detail equals the raised exception message,
verbatim (str(e) of a plain exception is its message). -/
theorem c5_remote_exception_500_verbatim
    (GOOGLE_API_KEY : Option String) (hkey : keyMissing GOOGLE_API_KEY = false)
    (remote : Option String → RemoteCall → RemoteOutcome)
    (st : Option String) (request : ChatRequest) (preset : ModePreset)
    (hmode : selectPreset request.mode = some preset)
    (message : String)
    (hremote : remote GOOGLE_API_KEY (mkCall preset request.history)
      = RemoteOutcome.raise message) :
    ((generate_content GOOGLE_API_KEY remote st request).1).1
      = Response.httpError 500 message := by
  simp [generate_content, try_block, hkey, hmode, hremote, strOfExc]

/-- Claim C5 witness. -/
theorem c5_witness :
    ((generate_content (some "test-key") stubRaise none
        { history := [sampleTurn], mode := "assistant" }).1).1
      = Response.httpError 500 "503 Service Unavailable" :=
  c5_remote_exception_500_verbatim (some "test-key") rfl stubRaise none
    { history := [sampleTurn], mode := "assistant" } assistantPreset rfl
    "503 Service Unavailable" rfl

/-- Claim C6: when the credential check of line 118 fails, any request -
whatever its mode, valid or not - gets a 500 with the fixed detail
"API key not configured on the server." (a constant string mentioning no
credential value), and zero remote calls are issued. -/
theorem c6_missing_key_500_no_calls
    (GOOGLE_API_KEY : Option String) (hkey : keyMissing GOOGLE_API_KEY = true)
    (remote : Option String → RemoteCall → RemoteOutcome)
    (st : Option String) (request : ChatRequest) :
    (generate_content GOOGLE_API_KEY remote st request).1
      = (Response.httpError 500 "API key not configured on the server.", []) := by
  simp [generate_content, hkey]

/-- Claim C6 witness: credential absent and the mode invalid as well. -/
theorem c6_witness :
    (generate_content none stubHello none { history := [], mode := "bogus" }).1
      = (Response.httpError 500 "API key not configured on the server.", []) :=
  c6_missing_key_500_no_calls none rfl stubHello none { history := [], mode := "bogus" }

/-- Claim C7: valid mode and passing credential check - the handler issues
exactly one remote call, carrying the preset model name, system instruction
and generation configuration, and the request history verbatim; this holds
whether the remote call returns or raises. -/
theorem c7_exactly_one_call_history_verbatim
    (GOOGLE_API_KEY : Option String) (hkey : keyMissing GOOGLE_API_KEY = false)
    (remote : Option String → RemoteCall → RemoteOutcome)
    (st : Option String) (request : ChatRequest) (preset : ModePreset)
    (hmode : selectPreset request.mode = some preset) :
    ((generate_content GOOGLE_API_KEY remote st request).1).2
      = [{ model_name := preset.model_name,
           system_instruction := preset.system_instruction,
           generation_config := preset.generation_config,
           history := request.history }] := by
  cases hremote : remote GOOGLE_API_KEY (mkCall preset request.history) <;>
    simp only [mkCall] at hremote <;>
    simp [generate_content, try_block, hkey, hmode, hremote, mkCall]

/-- Claim C7 witness. -/
theorem c7_witness :
    ((generate_content (some "test-key") stubHello none
        { history := [sampleTurn], mode := "tutor" }).1).2
      = [{ model_name := tutorPreset.model_name,
           system_instruction := tutorPreset.system_instruction,
           generation_config := tutorPreset.generation_config,
           history := [sampleTurn] }] :=
  c7_exactly_one_call_history_verbatim (some "test-key") rfl stubHello none
    { history := [sampleTurn], mode := "tutor" } tutorPreset rfl

/-- Claim C8: the handler is deterministic and carries no cross-request
state: being a pure function of the loaded key, the stub remote and the
request, its observable output is invariant under the genai library state
left behind by any earlier request, so handling the same request again -
after itself or after any other request r2 - yields the identical output. -/
theorem c8_deterministic_stateless
    (GOOGLE_API_KEY : Option String)
    (remote : Option String → RemoteCall → RemoteOutcome)
    (st : Option String) (r1 r2 : ChatRequest) :
    (generate_content GOOGLE_API_KEY remote
        ((generate_content GOOGLE_API_KEY remote st r2).2) r1).1
      = (generate_content GOOGLE_API_KEY remote st r1).1 :=
  output_independent_of_state GOOGLE_API_KEY remote
    ((generate_content GOOGLE_API_KEY remote st r2).2) st r1

/-- Claim C9: the fallback is produced whenever the first candidate lacks
content or its content has zero parts; later candidates are never inspected,
so a text-bearing second candidate does not prevent the fallback. -/
theorem c9_first_candidate_empty_gives_fallback
    (GOOGLE_API_KEY : Option String) (hkey : keyMissing GOOGLE_API_KEY = false)
    (remote : Option String → RemoteCall → RemoteOutcome)
    (st : Option String) (request : ChatRequest) (preset : ModePreset)
    (hmode : selectPreset request.mode = some preset)
    (response : GenResponse) (c : Candidate) (cs : List Candidate)
    (content : Content)
    (hremote : remote GOOGLE_API_KEY (mkCall preset request.history)
      = RemoteOutcome.ok response)
    (hcand : response.candidates = c :: cs)
    (hempty : c.content = none ∨ (c.content = some content ∧ content.parts = [])) :
    ((generate_content GOOGLE_API_KEY remote st request).1).1
      = Response.ok (fallback_text response) := by
  rcases hempty with h | ⟨h1, h2⟩
  · simp [generate_content, try_block, hkey, hmode, hremote, extract_text, hcand, h]
  · simp [generate_content, try_block, hkey, hmode, hremote, extract_text, hcand, h1, h2]

/-- Claim C9 witness: the first candidate has no content while the second
carries text; the handler still answers with the fallback payload. -/
theorem c9_witness :
    ((generate_content (some "test-key") stubFirstEmpty none
        { history := [], mode := "assistant" }).1).1
      = Response.ok (fallback_text respFirstEmpty) :=
  c9_first_candidate_empty_gives_fallback (some "test-key") rfl stubFirstEmpty none
    { history := [], mode := "assistant" } assistantPreset rfl respFirstEmpty
    { content := none }
    [{ content := some { parts := [{ text := "text only in the second candidate" }] } }]
    { parts := [] } rfl rfl (Or.inl rfl)

/-- Claim C10: the handler does not validate the history contents: an empty
history is not rejected as invalid input - with a valid mode and the
credential check passing it is passed as-is to the single remote call, and
the outcome is never an HTTP 400. -/
theorem c10_empty_history_accepted
    (GOOGLE_API_KEY : Option String) (hkey : keyMissing GOOGLE_API_KEY = false)
    (remote : Option String → RemoteCall → RemoteOutcome)
    (st : Option String) (mode : String) (preset : ModePreset)
    (hmode : selectPreset mode = some preset) :
    ((generate_content GOOGLE_API_KEY remote st { history := [], mode := mode }).1).2
      = [{ model_name := preset.model_name,
           system_instruction := preset.system_instruction,
           generation_config := preset.generation_config,
           history := [] }]
    ∧ is_http_400 ((generate_content GOOGLE_API_KEY remote st
        { history := [], mode := mode }).1).1 = false := by
  constructor
  · cases hremote : remote GOOGLE_API_KEY (mkCall preset []) <;>
      simp only [mkCall] at hremote <;>
      simp [generate_content, try_block, hkey, hmode, hremote, mkCall]
  · cases hremote : remote GOOGLE_API_KEY (mkCall preset []) with
    | ok response =>
      simpa [generate_content, try_block, hkey, hmode, hremote]
        using is_http_400_extract response
    | raise message =>
      simp [generate_content, try_block, hkey, hmode, hremote, strOfExc, is_http_400]

/-- Claim C10 witness. -/
theorem c10_witness :
    ((generate_content (some "test-key") stubHello none
        { history := [], mode := "assistant" }).1).2
      = [{ model_name := assistantPreset.model_name,
           system_instruction := assistantPreset.system_instruction,
           generation_config := assistantPreset.generation_config,
           history := [] }]
    ∧ is_http_400 ((generate_content (some "test-key") stubHello none
        { history := [], mode := "assistant" }).1).1 = false :=
  c10_empty_history_accepted (some "test-key") rfl stubHello none "assistant"
    assistantPreset rfl



end AIChatV1
